import Mathlib

set_option maxRecDepth 8000
set_option maxHeartbeats 1000000

/-!
Verification development for the digis-parser repository: a shallow embedding of
the fetch/retry engine (core/base.py), the URL discovery and pagination walk
(core/urls.py), the number-extraction utilities (tools.py), the product model and
price normalization (models.py), and the harvest pipeline (service/init).
Machine integers are modelled as Nat/Int, Python Decimal values as rationals,
Python exceptions as an explicit error type.
-/

/-- Python exceptions that the embedded code can raise. -/
inductive PyErr where
  | typeError
  | valueError
  | attributeError
deriving DecidableEq

/-! ## tools.py: extract_number and helpers

The source builds six regular expressions and returns the first match.
We embed a small backtracking matcher whose priority order (greedy first)
mirrors Python re semantics, and transliterate the six patterns. -/

/-- Regular-expression syntax needed by the patterns in tools.py. -/
inductive Re where
  | chr (c : Char)
  | cls (cs : List Char)
  | digit
  | seq (a b : Re)
  | opt (a : Re)
  | star (a : Re)
  | plus (a : Re)
deriving DecidableEq

/-- Backtracking matcher: all suffixes remaining after a match of the pattern
at the front of the string, in Python's greedy priority order. The fuel bounds
recursion; it is chosen large enough for every concrete input we evaluate. -/
def reMatch : Nat → Re → List Char → List (List Char)
  | 0, _, _ => []
  | _ + 1, Re.chr c, s =>
    match s with
    | [] => []
    | x :: rest => if x = c then [rest] else []
  | _ + 1, Re.cls cs, s =>
    match s with
    | [] => []
    | x :: rest => if cs.contains x then [rest] else []
  | _ + 1, Re.digit, s =>
    match s with
    | [] => []
    | x :: rest => if x.isDigit then [rest] else []
  | f + 1, Re.seq a b, s => (reMatch f a s).flatMap (fun s2 => reMatch f b s2)
  | f + 1, Re.opt a, s => reMatch f a s ++ [s]
  | f + 1, Re.plus a, s => (reMatch f a s).flatMap (fun s2 => reMatch f (Re.star a) s2)
  | f + 1, Re.star a, s =>
    ((reMatch f a s).flatMap (fun s2 =>
      if s2.length < s.length then reMatch f (Re.star a) s2 else [])) ++ [s]

/-- Fuel that is ample for the short strings this development evaluates. -/
def reFuel (s : List Char) : Nat := (s.length + 2) * 64

/-- re.search: leftmost match; returns the matched substring. -/
def reSearch (r : Re) : List Char → Option (List Char)
  | [] =>
    match (reMatch 64 r []).head? with
    | some _ => some []
    | none => none
  | x :: t =>
    match (reMatch (reFuel (x :: t)) r (x :: t)).head? with
    | some rest => some ((x :: t).take ((x :: t).length - rest.length))
    | none => reSearch r t

/-- Transliteration of the sub-pattern for one to three digits. -/
def rep13Digit : Re := Re.seq Re.digit (Re.opt (Re.seq Re.digit (Re.opt Re.digit)))

/-- Transliteration of a separator group: space or comma then three digits. -/
def sepGroup : Re := Re.seq (Re.cls [' ', ',']) (Re.seq Re.digit (Re.seq Re.digit Re.digit))

/-- Transliteration of a decimal point followed by one or more digits. -/
def fracPart : Re := Re.seq (Re.chr '.') (Re.plus Re.digit)

/-- The six patterns of tools.extract_number, in source order. -/
def numberPatterns : List Re :=
  [Re.seq (Re.opt (Re.chr '-')) (Re.seq rep13Digit (Re.seq (Re.star sepGroup) fracPart)),
   Re.seq (Re.opt (Re.chr '-')) (Re.seq rep13Digit (Re.plus sepGroup)),
   Re.seq (Re.opt (Re.chr '-')) (Re.plus Re.digit),
   Re.seq rep13Digit (Re.seq (Re.star sepGroup) fracPart),
   Re.seq rep13Digit (Re.plus sepGroup),
   Re.plus Re.digit]

/-- A Python number: int, or float. Python binary floats are modelled as the
exact decimal rational; only the int path is exercised by the claims. -/
inductive PyNum where
  | intNum (i : Int)
  | floatNum (q : ℚ)
deriving DecidableEq

/-- Digits of a numeral string to a natural number, as Python int() on digits. -/
def digitsToNat (s : List Char) : Nat := s.foldl (fun n c => n * 10 + (c.toNat - 48)) 0

/-- Python int() on a matched numeral of shape minus-sign? digits. -/
def parseIntStr (s : List Char) : Int :=
  match s with
  | '-' :: rest => - (digitsToNat rest : Int)
  | _ => (digitsToNat s : Int)

/-- Nonnegative decimal numeral with a fractional part, as an exact rational. -/
def parsePosFloat (s : List Char) : ℚ :=
  let intPart := s.takeWhile (fun c => c ≠ '.')
  let frac := (s.dropWhile (fun c => c ≠ '.')).drop 1
  (digitsToNat intPart : ℚ) + (digitsToNat frac : ℚ) / ((10 : ℚ) ^ frac.length)

/-- Python float() on a matched numeral with a decimal point. -/
def parseFloatStr (s : List Char) : ℚ :=
  match s with
  | '-' :: rest => - parsePosFloat rest
  | _ => parsePosFloat s

/-- tools.extract_number: first pattern that matches wins; the matched text has
spaces and commas removed; a numeral with a dot whose value is integral is
returned as an int (float.is_integer), otherwise as a float. -/
def extract_number (text : String) (default : Option PyNum) : Option PyNum :=
  if text.data = [] then default
  else
    let results := numberPatterns.filterMap (fun p =>
      (reSearch p text.data).map (fun m =>
        let numberStr := m.filter (fun c => ¬ (c = ' ' ∨ c = ','))
        if numberStr.contains '.' then
          let q := parseFloatStr numberStr
          if q.den = 1 then PyNum.intNum q.num else PyNum.floatNum q
        else PyNum.intNum (parseIntStr numberStr)))
    match results.head? with
    | some n => some n
    | none => default

/-- Python int() applied to a float: truncation toward zero. -/
def ratTrunc (q : ℚ) : Int := if 0 ≤ q then ⌊q⌋ else ⌈q⌉

/-- tools.get_integer with an integer default: the raise branch for a missing
number is unreachable because a non-None default is always supplied. -/
def get_integer (text : String) (default : Int) : Int :=
  match extract_number text (some (PyNum.intNum default)) with
  | some (PyNum.intNum i) => i
  | some (PyNum.floatNum q) => ratTrunc q
  | none => default

/-- tools.get_num: get_integer with default 0. -/
def get_num (text : String) : Int := get_integer text 0

/-! ## models.py: price normalization, brand detection, the Product dataclass -/

/-- Python str.lower restricted to the alphabets appearing in this code base:
ASCII letters and the Russian Cyrillic block. -/
def pyLowerChar (c : Char) : Char :=
  if 'A' ≤ c ∧ c ≤ 'Z' then Char.ofNat (c.toNat + 32)
  else if 'А' ≤ c ∧ c ≤ 'Я' then Char.ofNat (c.toNat + 32)
  else if c = 'Ё' then 'ё'
  else c

/-- Python str.lower on a whole string. -/
def pyLower (s : String) : String := String.mk (s.data.map pyLowerChar)

/-- Python s.replace(" ", ""): drop every space. -/
def removeSpaces (s : String) : String := String.mk (s.data.filter (fun c => c ≠ ' '))

/-- ProductGenerator.RUB_SYMBOL. -/
def RUB_SYMBOL : Char := 'р'

/-- Decimal.quantize(Decimal(1), ROUND_HALF_UP): round half away from zero. -/
def roundHalfUp (q : ℚ) : Int :=
  if 0 ≤ q then ⌊q + 1/2⌋ else - ⌊-q + 1/2⌋

/-- ProductGenerator._safe_extract_price. The stored exchange rate (a Decimal)
is a rational; None means the rate was never fetched. get_num with default 0
never raises, so the except branch of the source is unreachable here. -/
def safe_extract_price (rate : Option ℚ) (price_str : String) : Int :=
  let cleaned := removeSpaces price_str
  let price_value := get_num cleaned
  if (pyLower cleaned).data.contains RUB_SYMBOL then price_value
  else
    match rate with
    | none => price_value
    | some r => roundHalfUp ((price_value : ℚ) * r)

/-- tools.is_english via is_english_text with no spaces or punctuation:
nonempty and every character an ASCII letter. -/
def isEnglishWord (s : String) : Bool := s.data ≠ [] && s.data.all Char.isAlpha

/-- Python str.split() with no argument: split on whitespace runs. -/
def pySplitWs (s : String) : List String :=
  (s.split Char.isWhitespace).filter (fun w => w ≠ "")

/-- ASCII uppercase of one character. -/
def asciiUpperChar (c : Char) : Char :=
  if 'a' ≤ c ∧ c ≤ 'z' then Char.ofNat (c.toNat - 32) else c

/-- Python str.title() on a single word: first character uppercased,
the rest lowercased. -/
def pyTitleWord (w : String) : String :=
  match w.data with
  | [] => ""
  | c :: rest => String.mk (asciiUpperChar c :: rest.map pyLowerChar)

/-- Substring test used for brand in title. -/
def isInfixOfB (n : List Char) : List Char → Bool
  | [] => decide (n = [])
  | x :: t => n.isPrefixOf (x :: t) || isInfixOfB n t

/-- ProductGenerator._find_brand. The brand set is modelled as a list (the
source iterates a Python set, whose order is unspecified). -/
def find_brand (brands : List String) (title : String) : String :=
  let title_lower := pyLower title
  match brands.find? (fun b => isInfixOfB (pyLower b).data title_lower.data) with
  | some b => b
  | none =>
    match (pySplitWs title_lower).find? (fun w => isEnglishWord w && w.length > 2) with
    | some w => pyTitleWord w
    | none => "Unknown"

/-- The dict produced by DigisParser.parse_product, keyword-for-keyword the
input of ProductGenerator.create_product. The field docs embeds the source
field named documentation. -/
structure ProductData where
  title : String
  short_description : String
  full_description : String
  code_digis : Int
  article : String
  price : String
  poster : List String
  characteristics : List (String × String)
  specification : List (String × String)
  docs : List String
  accessories : List String
deriving DecidableEq

/-- The frozen Product dataclass of models.py. The field docs embeds the
source field named documentation; the dataclass has a field posters and no
field named poster. -/
structure Product where
  title : String
  short_description : String
  full_description : String
  code_digis : Int
  article : String
  price : Int
  posters : List String
  characteristics : List (String × String)
  specification : List (String × String)
  docs : List String
  accessories : List String
  brand : String
deriving DecidableEq

/-- ProductGenerator.create_product. The source's x or [] fallbacks are the
identity on the typed model, since a falsy collection is the empty one. -/
def create_product (rate : Option ℚ) (brands : List String) (d : ProductData) : Product :=
  { title := d.title.trim
    short_description := d.short_description.trim
    full_description := d.full_description.trim
    code_digis := d.code_digis
    article := d.article.trim
    price := safe_extract_price rate d.price
    posters := d.poster
    characteristics := d.characteristics
    specification := d.specification
    docs := d.docs
    accessories := d.accessories
    brand := find_brand brands d.title }

/-- Product.eq of models.py. Python and short-circuits left to right; after
title, short_description, code_digis, article and price all compare equal, the
source reads self.poster, an attribute the dataclass does not have (the field
is posters), raising AttributeError. full_description is never compared. -/
def product_eq (p q : Product) : Except PyErr Bool :=
  if p.title ≠ q.title then Except.ok false
  else if p.short_description ≠ q.short_description then Except.ok false
  else if p.code_digis ≠ q.code_digis then Except.ok false
  else if p.article ≠ q.article then Except.ok false
  else if p.price ≠ q.price then Except.ok false
  else Except.error PyErr.attributeError

/-- Chunks of size n, via fuel (the source never chunks with n = 0:
batch sizes and digit grouping use positive sizes). -/
def chunksOf (n : Nat) : Nat → List α → List (List α)
  | 0, _ => []
  | _, [] => []
  | f + 1, l => l.take n :: chunksOf n f (l.drop n)

/-- Python format spec comma grouping of an integer, with the comma replaced
by a space as in Product._format_price. -/
def formatThousands (i : Int) : String :=
  let sign := if i < 0 then "-" else ""
  let ds := (toString i.natAbs).data
  let groups := (chunksOf 3 ds.length ds.reverse).map List.reverse
  sign ++ String.intercalate " " (groups.reverse.map String.mk)

/-- Product._format_price. -/
def format_price (price : Int) : String := formatThousands price ++ " ₽"

/-- Product._dict_to_string. -/
def dict_to_string (d : List (String × String)) : String :=
  if d.isEmpty then "Нет данных"
  else String.intercalate "; " (d.map (fun kv => kv.1 ++ ": " ++ kv.2))

/-- Product.as_flat_dict, as an ordered key-value list. The source really does
gate the joined docs list on specification being nonempty. -/
def as_flat_dict (p : Product) : List (String × String) :=
  [("Название", p.title),
   ("Короткое описание", if p.short_description = "" then "Нет" else p.short_description),
   ("Полное описание", if p.full_description = "" then "Нет" else p.full_description),
   ("Код Digis", toString p.code_digis),
   ("Артикул", p.article),
   ("Цена", format_price p.price),
   ("Изображение", String.intercalate "|| " p.posters),
   ("Спецификации", if p.specification.isEmpty then "Нет" else dict_to_string p.specification),
   ("Документация", if p.specification.isEmpty then "Нет" else String.intercalate "|| " p.docs),
   ("Аксессуары", if p.accessories.isEmpty then "Нет" else String.intercalate "|| " p.accessories),
   ("Бренд", p.brand)]

/-- dict.get with a default. -/
def lookupD (d : List (String × String)) (k : String) (dflt : String) : String :=
  match d.find? (fun kv => kv.1 = k) with
  | some kv => kv.2
  | none => dflt

/-- DigisAPI._get_product_row. -/
def get_product_row (p : Product) : List String :=
  let fd := as_flat_dict p
  [lookupD fd "Название" "-", lookupD fd "Короткое описание" "-",
   lookupD fd "Полное описание" "-", lookupD fd "Код Digis" "-",
   lookupD fd "Артикул" "-", lookupD fd "Цена" "-",
   lookupD fd "Изображение" "-", lookupD fd "Спецификации" "-",
   lookupD fd "Документация" "-", lookupD fd "Аксессуары" "-",
   lookupD fd "Бренд" "-"]

/-! ## core/base.py: BaseParser._fetch

The retry loop is embedded as a function of an attempt script (what the network
returns on each attempt) and of the drawn jitters, recording every sleep it
performs and which of the four distinct return paths it takes. -/

/-- What one network attempt yields before classification. -/
inductive AttemptResult where
  | status (code : Nat)
  | timeout
  | transportError
deriving DecidableEq

/-- A sleep performed by the fetch loop, tagged by its role in the source. -/
inductive SleepEvent where
  | pacing (t : ℚ)
  | backoff (t : ℚ)
  | cooldown (t : ℚ)
deriving DecidableEq

/-- The four distinct return paths of the source loop: success returns a parsed
document; 403 returns early; 404 returns None from the handler; falling out of
the loop returns None after all attempts. -/
inductive FetchOutcome where
  | document
  | blocked
  | notFound
  | exhausted
deriving DecidableEq

/-- Fetcher configuration and the random draws, made explicit. -/
structure FetchConfig where
  sleep_time : ℚ
  pacing_jitter : ℚ
  backoff_jitter : Nat → ℚ

/-- How the source's branch structure classifies one attempt result: the 429
and 403 checks come first; raise_for_status raises exactly for status at least
400; the handler retries 5xx, returns on 404, retries anything else; timeouts
and other exceptions retry. -/
inductive AttemptClass where
  | rateLimited
  | banned
  | success
  | retryServer
  | notFound404
  | retryOther
  | retryTimeout
  | retryTransport
deriving DecidableEq

/-- Classification of one attempt, branch for branch from the source. -/
def classify : AttemptResult → AttemptClass
  | AttemptResult.status s =>
    if s = 429 then AttemptClass.rateLimited
    else if s = 403 then AttemptClass.banned
    else if s < 400 then AttemptClass.success
    else if 500 ≤ s ∧ s < 600 then AttemptClass.retryServer
    else if s = 404 then AttemptClass.notFound404
    else AttemptClass.retryOther
  | AttemptResult.timeout => AttemptClass.retryTimeout
  | AttemptResult.transportError => AttemptClass.retryTransport

/-- An attempt outcome on which the source loop continues to the next attempt
by an exception-handler path: 5xx, timeouts, other transport errors, and other
non-retryable-status codes. 429 continues too but through the cooldown path. -/
def isTransient (r : AttemptResult) : Bool :=
  match classify r with
  | AttemptClass.retryServer => true
  | AttemptClass.retryOther => true
  | AttemptClass.retryTimeout => true
  | AttemptClass.retryTransport => true
  | _ => false

/-- The backoff sleep that the source performs at the top of every attempt
after the first: sleep_time times 2 to the attempt minus 1, plus jitter. -/
def backoffEvs (cfg : FetchConfig) (k : Nat) (evs : List SleepEvent) : List SleepEvent :=
  if 1 < k then
    evs ++ [SleepEvent.backoff (cfg.sleep_time * 2 ^ (k - 1) + cfg.backoff_jitter k)]
  else evs

/-- The attempt loop of BaseParser._fetch: k is the attempt counter (1-based),
r the remaining attempts of the for range(1, 4) budget, evs the sleeps so far.
Before attempts 2 and 3 the exponential backoff sleep is performed
unconditionally; a 429 sleeps the fixed 60-unit cooldown and continues. -/
def fetchGo (cfg : FetchConfig) (script : Nat → AttemptResult) :
    Nat → Nat → List SleepEvent → List SleepEvent × Nat × FetchOutcome
  | _, 0, evs => (evs, 3, FetchOutcome.exhausted)
  | k, r + 1, evs =>
    match classify (script k) with
    | AttemptClass.rateLimited =>
        fetchGo cfg script (k + 1) r (backoffEvs cfg k evs ++ [SleepEvent.cooldown 60])
    | AttemptClass.banned => (backoffEvs cfg k evs, k, FetchOutcome.blocked)
    | AttemptClass.success => (backoffEvs cfg k evs, k, FetchOutcome.document)
    | AttemptClass.notFound404 => (backoffEvs cfg k evs, k, FetchOutcome.notFound)
    | AttemptClass.retryServer => fetchGo cfg script (k + 1) r (backoffEvs cfg k evs)
    | AttemptClass.retryOther => fetchGo cfg script (k + 1) r (backoffEvs cfg k evs)
    | AttemptClass.retryTimeout => fetchGo cfg script (k + 1) r (backoffEvs cfg k evs)
    | AttemptClass.retryTransport => fetchGo cfg script (k + 1) r (backoffEvs cfg k evs)

/-- BaseParser._fetch: pacing sleep of max(2, sleep_time + uniform(-0.5, 1.0)),
then up to 3 attempts. Returns the sleeps performed, the number of attempts
issued, and the outcome path. -/
def fetch (cfg : FetchConfig) (script : Nat → AttemptResult) :
    List SleepEvent × Nat × FetchOutcome :=
  fetchGo cfg script 1 3 [SleepEvent.pacing (max 2 (cfg.sleep_time + cfg.pacing_jitter))]

/-! ## core/urls.py: URL discovery, pagination walk -/

/-- One fetched category page, at the abstraction level the walk reads it:
the product URLs of its listing rows, and the stripped texts of the pager's
children when pager markup is present. -/
structure Page where
  rows : List String
  pager : Option (List String)
deriving DecidableEq

/-- PaginationDigis._extract_page_urls, applied to the result of a fetch.
On None the source calls .select on None and raises AttributeError; the
pages 2..max loop reaches this because its failure branch only logs,
without continuing to the next task. -/
def extract_page_urls : Option Page → Except PyErr (List String)
  | none => Except.error PyErr.attributeError
  | some p => Except.ok p.rows

/-- Python str.isdigit for the label texts. -/
def isdigitStr (s : String) : Bool := s.data ≠ [] && s.data.all Char.isDigit

/-- Python int() on an all-digit label. -/
def strToNat (s : String) : Nat := digitsToNat s.data

/-- Python max() over a list; on an empty sequence it raises ValueError. -/
def pyMax : List Nat → Except PyErr Nat
  | [] => Except.error PyErr.valueError
  | x :: xs => Except.ok (xs.foldl max x)

/-- range(2, max_page + 1): the page numbers fetched concurrently. -/
def pages_range (max_page : Nat) : List Nat := List.range' 2 (max_page - 1)

/-- PaginationDigis.start_parsing_catrgory over a page oracle: page 1 is the
parameterless fetch, page k is the fetch with query parameter PAGEN_1 = k.
Completion order of the concurrent page tasks is modelled as page order;
the claims proved about this function do not depend on that order. -/
def start_parsing_catrgory (fetchPage : Nat → Option Page) : Except PyErr (Finset String) :=
  match fetchPage 1 with
  | none => Except.ok ∅
  | some soup =>
    let page_urls := soup.rows.toFinset
    match soup.pager with
    | none => Except.ok page_urls
    | some labels =>
      match pyMax ((labels.filter isdigitStr).map strToNat) with
      | Except.error e => Except.error e
      | Except.ok max_page =>
        (pages_range max_page).foldlM (fun acc page =>
          match extract_page_urls (fetchPage page) with
          | Except.error e => Except.error e
          | Except.ok urls => Except.ok (acc ∪ urls.toFinset)) page_urls

/-- DigisExractUrls.start_extract_urls: union of the level-2 URL lists as their
tasks complete, starting from the empty set. -/
def start_extract_urls (level2_results : List (List String)) : Finset String :=
  level2_results.foldl (fun acc r => acc ∪ r.toFinset) ∅

/-- DigisManager.extract_all_urls: union of the per-category URL sets as their
pagination tasks complete, starting from the empty set. -/
def extract_all_urls (category_results : List (Finset String)) : Finset String :=
  category_results.foldl (fun acc r => acc ∪ r) ∅

/-! ## service: DigisAPI.start_parsing and _process_batch -/

/-- The successful and failed counters of one batch. -/
structure BatchStats where
  successful : Nat
  failed : Nat
deriving DecidableEq

/-- One iteration of the as_completed loop in _process_batch. The awaited task
is _create_limited_task, which catches every exception and returns None, so
the await itself never raises; a None result fails the truthiness test and
changes neither counter. create_product and the row writer are total here
(the only raise sites they keep in the source are writer I/O errors). -/
def process_step (rate : Option ℚ) (brands : List String)
    (acc : BatchStats × List (List String)) (r : Option ProductData) :
    BatchStats × List (List String) :=
  match r with
  | some d =>
    (⟨acc.1.successful + 1, acc.1.failed⟩,
     acc.2 ++ [get_product_row (create_product rate brands d)])
  | none => acc

/-- DigisAPI._process_batch over the awaited per-URL results. -/
def process_batch (rate : Option ℚ) (brands : List String)
    (results : List (Option ProductData)) : BatchStats × List (List String) :=
  results.foldl (process_step rate brands) (⟨0, 0⟩, [])

/-- A Python value that the start_parsing frontier variable can hold: the
crawl branch binds urls to an int (the result of len), the file branch binds
it to a list of URL strings. -/
inductive PyVal where
  | pyInt (n : Nat)
  | pyList (l : List String)
deriving DecidableEq

/-- Python len(): on a list its length; on an int it raises TypeError. -/
def pyLen : PyVal → Except PyErr Nat
  | PyVal.pyInt _ => Except.error PyErr.typeError
  | PyVal.pyList l => Except.ok l.length

/-- The two frontier sources of start_parsing: urls_path None runs the crawl
coordinator, otherwise the URL column of the Excel file is read. -/
inductive UrlsSource where
  | crawl (discovered : Finset String)
  | file (rows : List String)

/-- What the source assigns to the variable urls in each mode: the crawl
branch assigns len(await extract_all_urls(...)), an int. -/
def frontier_value : UrlsSource → PyVal
  | UrlsSource.crawl s => PyVal.pyInt s.card
  | UrlsSource.file rows => PyVal.pyList rows

/-- The header row written once before any batch. -/
def csv_headers : List String :=
  ["Название", "Короткое описание", "Полное описание", "Код Digis", "Артикул",
   "Цена", "Изображении", "Спецификации", "Документации", "Аксессуары", "Бренд"]

/-- DigisAPI.start_parsing: the frontier is bound, len(urls) is evaluated for
the log line, then the header row is written and the frontier is processed in
batches of batch_size, accumulating the per-batch counters. parse is the
per-URL result of _create_limited_task. The except handler of the source logs
and re-raises, so an exception escapes as the result. -/
def start_parsing (src : UrlsSource) (parse : String → Option ProductData)
    (rate : Option ℚ) (brands : List String) (batch_size : Nat) :
    Except PyErr (BatchStats × List (List String)) :=
  match pyLen (frontier_value src) with
  | Except.error e => Except.error e
  | Except.ok _ =>
    match frontier_value src with
    | PyVal.pyInt _ => Except.error PyErr.typeError
    | PyVal.pyList rows =>
      let batches := chunksOf batch_size rows.length rows
      Except.ok (batches.foldl (fun acc batch =>
        let br := process_batch rate brands (batch.map parse)
        (⟨acc.1.successful + br.1.successful, acc.1.failed + br.1.failed⟩, acc.2 ++ br.2))
        (⟨0, 0⟩, [csv_headers]))

/-! ## Concrete fixtures used by counterexamples and witnesses -/

/-- A well-formed parsed-product dict with a rouble price. -/
def sampleData : ProductData :=
  { title := "Test Item"
    short_description := "short"
    full_description := "full"
    code_digis := 1
    article := "A1"
    price := "100 р"
    poster := []
    characteristics := []
    specification := []
    docs := []
    accessories := [] }

/-- A batch of 10 awaited results of which 3 are the None of a caught
per-URL failure. -/
def batch10 : List (Option ProductData) :=
  [some sampleData, some sampleData, some sampleData, none, some sampleData,
   none, some sampleData, some sampleData, none, some sampleData]

/-- Fetch configuration with sleep_time 3, pacing jitter one half, backoff
jitter 1 on every attempt. -/
def cfgA : FetchConfig := ⟨3, 1/2, fun _ => 1⟩

/-- Attempt script: 429 on the first attempt, 200 afterwards. -/
def scriptRate : Nat → AttemptResult :=
  fun k => if k = 1 then AttemptResult.status 429 else AttemptResult.status 200

/-- Attempt script: 403 on every attempt. -/
def scriptBan : Nat → AttemptResult := fun _ => AttemptResult.status 403

/-- Attempt script: 500 on every attempt. -/
def scriptServer : Nat → AttemptResult := fun _ => AttemptResult.status 500

/-- Category oracle for the failed-sibling-page walk: page 1 lists pages up
to 3, page 2 fails to fetch, page 3 succeeds. -/
def fetchLost : Nat → Option Page :=
  fun k =>
    if k = 1 then some ⟨["a"], some ["1", "3"]⟩
    else if k = 2 then none
    else some ⟨["c"], none⟩

/-- Category oracle whose page 1 pager shows labels 1, 2, 3, 5 and whose page
k lists the single product URL p-k. -/
def fetchPager : Nat → Option Page :=
  fun k =>
    some ⟨["p" ++ toString k], if k = 1 then some ["1", "2", "3", "5"] else none⟩

/-- Category oracle with no pager markup on page 1. -/
def fetchNoPager : Nat → Option Page := fun _ => some ⟨["q1"], none⟩

/-- Category oracle whose pager markup is present but has no numeric label. -/
def fetchEmptyPager : Nat → Option Page :=
  fun k => if k = 1 then some ⟨["r1"], some ["след", "→"]⟩ else some ⟨["r2"], none⟩

/-- A concrete product. -/
def productA : Product :=
  { title := "Item A"
    short_description := "sa"
    full_description := "fa"
    code_digis := 1
    article := "A"
    price := 10
    posters := []
    characteristics := []
    specification := []
    docs := []
    accessories := []
    brand := "A" }

/-- A product differing from productA in its title. -/
def productB : Product := { productA with title := "Item B" }

/-! ## Helper lemmas -/

theorem backoffEvs_eq (cfg : FetchConfig) (k : Nat) (evs : List SleepEvent) :
    backoffEvs cfg k evs =
      evs ++ (if 1 < k then
        [SleepEvent.backoff (cfg.sleep_time * 2 ^ (k - 1) + cfg.backoff_jitter k)]
      else []) := by
  unfold backoffEvs
  split <;> simp

theorem fetchGo_events_extend (cfg : FetchConfig) (script : Nat → AttemptResult) :
    ∀ r k evs, evs <+: (fetchGo cfg script k r evs).1 := by
  intro r
  induction r with
  | zero => intro k evs; simp [fetchGo]
  | succ n ih =>
    intro k evs
    have hb : evs <+: backoffEvs cfg k evs := by
      rw [backoffEvs_eq]; exact List.prefix_append _ _
    cases hc : classify (script k) <;> simp only [fetchGo, hc]
    case rateLimited =>
      exact hb.trans ((List.prefix_append _ _).trans (ih (k + 1) _))
    case banned => exact hb
    case success => exact hb
    case notFound404 => exact hb
    all_goals exact hb.trans (ih (k + 1) _)

theorem fetchGo_attempts_le (cfg : FetchConfig) (script : Nat → AttemptResult) :
    ∀ r k evs, k + r = 4 → (fetchGo cfg script k r evs).2.1 ≤ 3 := by
  intro r
  induction r with
  | zero => intro k evs _; simp [fetchGo]
  | succ n ih =>
    intro k evs h
    cases hc : classify (script k) <;> simp only [fetchGo, hc]
    case rateLimited => exact ih (k + 1) _ (by omega)
    case banned => omega
    case success => omega
    case notFound404 => omega
    all_goals exact ih (k + 1) _ (by omega)

theorem fetchGo_attempts_ge (cfg : FetchConfig) (script : Nat → AttemptResult) :
    ∀ r k evs, min k 3 ≤ (fetchGo cfg script k r evs).2.1 := by
  intro r
  induction r with
  | zero => intro k evs; simp only [fetchGo]; omega
  | succ n ih =>
    intro k evs
    cases hc : classify (script k) <;> simp only [fetchGo, hc]
    case rateLimited => exact le_trans (by omega) (ih (k + 1) _)
    case banned => omega
    case success => omega
    case notFound404 => omega
    all_goals exact le_trans (by omega) (ih (k + 1) _)

theorem fetchGo_all_transient (cfg : FetchConfig) (script : Nat → AttemptResult) :
    ∀ r k evs, k + r = 4 → (∀ j, k ≤ j → j ≤ 3 → isTransient (script j) = true) →
      (fetchGo cfg script k r evs).2 = (3, FetchOutcome.exhausted) := by
  intro r
  induction r with
  | zero => intro k evs _ _; simp [fetchGo]
  | succ n ih =>
    intro k evs h hall
    have hk : isTransient (script k) = true := hall k (le_refl k) (by omega)
    have step : ∀ evs2, (fetchGo cfg script (k + 1) n evs2).2 = (3, FetchOutcome.exhausted) :=
      fun evs2 => ih (k + 1) evs2 (by omega) (fun j h1 h2 => hall j (by omega) h2)
    cases hc : classify (script k)
    case rateLimited => simp [isTransient, hc] at hk
    case banned => simp [isTransient, hc] at hk
    case success => simp [isTransient, hc] at hk
    case notFound404 => simp [isTransient, hc] at hk
    case retryServer => simp only [fetchGo, hc]; exact step _
    case retryOther => simp only [fetchGo, hc]; exact step _
    case retryTimeout => simp only [fetchGo, hc]; exact step _
    case retryTransport => simp only [fetchGo, hc]; exact step _

theorem process_foldl_spec (rate : Option ℚ) (brands : List String) :
    ∀ (results : List (Option ProductData)) (acc : BatchStats × List (List String)),
      (results.foldl (process_step rate brands) acc).1.successful
          = acc.1.successful + results.countP Option.isSome
        ∧ (results.foldl (process_step rate brands) acc).1.failed = acc.1.failed
        ∧ (results.foldl (process_step rate brands) acc).2.length
          = acc.2.length + results.countP Option.isSome := by
  intro results
  induction results with
  | nil => intro acc; simp
  | cons r rs ih =>
    intro acc
    cases r with
    | none =>
      have h := ih acc
      simp only [List.foldl_cons, process_step, List.countP_cons] at h ⊢
      simpa using h
    | some d =>
      have h := ih (⟨acc.1.successful + 1, acc.1.failed⟩,
        acc.2 ++ [get_product_row (create_product rate brands d)])
      simp only [List.foldl_cons, process_step, List.countP_cons] at h ⊢
      obtain ⟨h1, h2, h3⟩ := h
      refine ⟨?_, h2, ?_⟩
      · simp [h1]; omega
      · simp at h3; simp [h3]; omega

theorem foldl_union_mem_sets :
    ∀ (m : List (Finset String)) (acc : Finset String) (u : String),
      u ∈ m.foldl (fun a r => a ∪ r) acc ↔ u ∈ acc ∨ ∃ s ∈ m, u ∈ s := by
  intro m
  induction m with
  | nil => intro acc u; simp
  | cons s rest ih =>
    intro acc u
    simp only [List.foldl_cons, ih, Finset.mem_union, List.mem_cons]
    constructor
    · rintro ((h | h) | ⟨t, ht, hu⟩)
      · exact Or.inl h
      · exact Or.inr ⟨s, Or.inl rfl, h⟩
      · exact Or.inr ⟨t, Or.inr ht, hu⟩
    · rintro (h | ⟨t, (rfl | ht), hu⟩)
      · exact Or.inl (Or.inl h)
      · exact Or.inl (Or.inr hu)
      · exact Or.inr ⟨t, ht, hu⟩

theorem foldl_union_mem_lists :
    ∀ (m : List (List String)) (acc : Finset String) (u : String),
      u ∈ m.foldl (fun a r => a ∪ r.toFinset) acc ↔ u ∈ acc ∨ ∃ s ∈ m, u ∈ s := by
  intro m
  induction m with
  | nil => intro acc u; simp
  | cons s rest ih =>
    intro acc u
    simp only [List.foldl_cons, ih, Finset.mem_union, List.mem_cons, List.mem_toFinset]
    constructor
    · rintro ((h | h) | ⟨t, ht, hu⟩)
      · exact Or.inl h
      · exact Or.inr ⟨s, Or.inl rfl, h⟩
      · exact Or.inr ⟨t, Or.inr ht, hu⟩
    · rintro (h | ⟨t, (rfl | ht), hu⟩)
      · exact Or.inl (Or.inl h)
      · exact Or.inl (Or.inr hu)
      · exact Or.inr ⟨t, ht, hu⟩

theorem foldl_max_spec :
    ∀ (xs : List Nat) (x : Nat),
      xs.foldl max x ∈ x :: xs
        ∧ x ≤ xs.foldl max x ∧ ∀ n ∈ xs, n ≤ xs.foldl max x := by
  intro xs
  induction xs with
  | nil => intro x; exact ⟨List.mem_cons_self x [], le_refl x, by simp⟩
  | cons y ys ih =>
    intro x
    obtain ⟨hmem, hle, hall⟩ := ih (max x y)
    refine ⟨?_, le_trans (le_max_left x y) hle, ?_⟩
    · rw [List.foldl_cons]
      rcases List.mem_cons.mp hmem with h | h
      · rcases max_choice x y with hxy | hxy
        · rw [h, hxy]; exact List.mem_cons_self _ _
        · rw [h, hxy]; exact List.mem_cons_of_mem _ (List.mem_cons_self _ _)
      · exact List.mem_cons_of_mem _ (List.mem_cons_of_mem _ h)
    · intro n hn
      rw [List.foldl_cons]
      rcases List.mem_cons.mp hn with rfl | hn
      · exact le_trans (le_max_right x n) hle
      · exact hall n hn

/-- Decidable equality for embedded fallible results. -/
instance exceptDecEq {ε α : Type} [DecidableEq ε] [DecidableEq α] :
    DecidableEq (Except ε α) := fun a b =>
  match a, b with
  | Except.error e, Except.error f => decidable_of_iff (e = f) (by simp)
  | Except.ok x, Except.ok y => decidable_of_iff (x = y) (by simp)
  | Except.error _, Except.ok _ => isFalse (fun hh => Except.noConfusion hh)
  | Except.ok _, Except.error _ => isFalse (fun hh => Except.noConfusion hh)

theorem fetchGo_rate_step (cfg : FetchConfig) (script : Nat → AttemptResult)
    (r k : Nat) (evs : List SleepEvent)
    (h : classify (script k) = AttemptClass.rateLimited) :
    fetchGo cfg script k (r + 1) evs
      = fetchGo cfg script (k + 1) r (backoffEvs cfg k evs ++ [SleepEvent.cooldown 60]) := by
  simp only [fetchGo, h]

theorem fetchGo_retry_step (cfg : FetchConfig) (script : Nat → AttemptResult)
    (r k : Nat) (evs : List SleepEvent)
    (h : classify (script k) = AttemptClass.retryServer
      ∨ classify (script k) = AttemptClass.retryOther
      ∨ classify (script k) = AttemptClass.retryTimeout
      ∨ classify (script k) = AttemptClass.retryTransport) :
    fetchGo cfg script k (r + 1) evs
      = fetchGo cfg script (k + 1) r (backoffEvs cfg k evs) := by
  rcases h with h | h | h | h <;> simp only [fetchGo, h]

theorem fetchGo_terminal_step (cfg : FetchConfig) (script : Nat → AttemptResult)
    (r k : Nat) (evs : List SleepEvent) :
    (classify (script k) = AttemptClass.banned →
      (fetchGo cfg script k (r + 1) evs).2 = (k, FetchOutcome.blocked))
    ∧ (classify (script k) = AttemptClass.success →
      (fetchGo cfg script k (r + 1) evs).2 = (k, FetchOutcome.document))
    ∧ (classify (script k) = AttemptClass.notFound404 →
      (fetchGo cfg script k (r + 1) evs).2 = (k, FetchOutcome.notFound)) := by
  refine ⟨fun h => ?_, fun h => ?_, fun h => ?_⟩ <;> simp only [fetchGo, h]

theorem fetchGo_backoff_prefix (cfg : FetchConfig) (script : Nat → AttemptResult)
    (r k : Nat) (evs : List SleepEvent) :
    backoffEvs cfg k evs <+: (fetchGo cfg script k (r + 1) evs).1 := by
  cases hc : classify (script k) <;> simp only [fetchGo, hc]
  case rateLimited =>
    exact (List.prefix_append _ _).trans (fetchGo_events_extend cfg script r (k + 1) _)
  case banned => exact List.prefix_refl _
  case success => exact List.prefix_refl _
  case notFound404 => exact List.prefix_refl _
  all_goals exact fetchGo_events_extend cfg script r (k + 1) _

theorem transient_cases (r : AttemptResult) (h : isTransient r = true) :
    classify r = AttemptClass.retryServer
    ∨ classify r = AttemptClass.retryOther
    ∨ classify r = AttemptClass.retryTimeout
    ∨ classify r = AttemptClass.retryTransport := by
  cases hc : classify r
  case retryServer => exact Or.inl rfl
  case retryOther => exact Or.inr (Or.inl rfl)
  case retryTimeout => exact Or.inr (Or.inr (Or.inl rfl))
  case retryTransport => exact Or.inr (Or.inr (Or.inr rfl))
  all_goals (simp [isTransient, hc] at h)

/-! ## Claim theorems -/

/-- Claim C1, amended: in _process_batch only an exception raised while
building or writing a record increments the failed counter; a per-URL fetch
or extraction failure is caught inside _create_limited_task, comes back as
None, fails the truthiness test and is counted in neither counter. Hence for
every batch the successful counter equals the number of non-None results, the
failed counter is 0, and exactly one sink row is written per success; a batch
of 10 URLs of which 3 fail yields successful 7, failed 0, and 7 rows. -/
theorem claim1_batch_failure_accounting :
    (∀ (rate : Option ℚ) (brands : List String) (results : List (Option ProductData)),
        (process_batch rate brands results).1.successful = results.countP Option.isSome
      ∧ (process_batch rate brands results).1.failed = 0
      ∧ (process_batch rate brands results).2.length = results.countP Option.isSome)
    ∧ (process_batch none [] batch10).1 = ⟨7, 0⟩
    ∧ (process_batch none [] batch10).2.length = 7 := by
  refine ⟨?_, by decide, by decide⟩
  intro rate brands results
  have h := process_foldl_spec rate brands results (⟨0, 0⟩, [])
  simpa [process_batch] using h

/-- Claim C1, counterexample to the claim as stated: the batch of 10 results
with 3 per-URL failures produces failed = 0, not failed = 3 — the 3 failures
are silently dropped from the statistics, while 7 rows are still written. -/
theorem claim1_counterexample :
    batch10.length = 10
    ∧ batch10.countP Option.isNone = 3
    ∧ (process_batch none [] batch10).1.failed = 0
    ∧ (process_batch none [] batch10).2.length = 7
    ∧ (process_batch none [] batch10).1 ≠ ⟨7, 3⟩ := by decide

/-- Claim C2: when urls_path is None, start_parsing binds urls to
len(await extract_all_urls(...)), an int, and the following len(urls) raises
TypeError, so the crawl-mode run aborts instead of completing; the
file-frontier mode completes normally. -/
theorem claim2_crawl_mode_type_error :
    (∀ (s : Finset String) (parse : String → Option ProductData) (rate : Option ℚ)
        (brands : List String) (bs : Nat),
        start_parsing (UrlsSource.crawl s) parse rate brands bs
          = Except.error PyErr.typeError)
    ∧ (∀ (rows : List String) (parse : String → Option ProductData) (rate : Option ℚ)
        (brands : List String) (bs : Nat),
        ∃ out, start_parsing (UrlsSource.file rows) parse rate brands bs
          = Except.ok out) :=
  ⟨fun _ _ _ _ _ => rfl, fun _ _ _ _ _ => ⟨_, rfl⟩⟩

/-- Claim C5: in the pagination walk, a failed fetch of one page in the
2..max_page range does not contribute an empty set — it raises AttributeError
(the failure branch only logs, then _extract_page_urls is applied to None),
aborting the walk. Concretely: page 1 announces pages up to 3, page 2 fails,
page 3 would succeed, and the walk errors instead of returning the union. -/
theorem claim5_page_failure_aborts_walk :
    start_parsing_catrgory fetchLost = Except.error PyErr.attributeError := by decide

/-- Claim C7: price normalization: a rouble price string parses to its literal
integer with no exchange rate set, and a dollar price string is multiplied by
the stored rate 90 and rounded half-up to an integer. -/
theorem claim7_price_normalization :
    safe_extract_price none "1 234 р" = 1234
    ∧ safe_extract_price (some 90) "15 USD" = 1350 := by
  constructor
  · decide
  · have hdol : ((pyLower (removeSpaces "15 USD")).data.contains RUB_SYMBOL) = false := by
      decide
    have hnum : get_num (removeSpaces "15 USD") = 15 := by decide
    simp only [safe_extract_price, hdol, Bool.false_eq_true, if_false, hnum]
    have hval : ((15 : Int) : ℚ) * 90 = 1350 := by norm_num
    rw [hval]
    unfold roundHalfUp
    rw [if_pos (by norm_num : (0 : ℚ) ≤ 1350)]
    rw [Int.floor_eq_iff]
    constructor <;> norm_num

/-- Claim C9, amended: Product equality raises AttributeError (the source
reads the nonexistent field poster) exactly when the five fields compared
before it — title, short_description, code_digis, article, price — are all
equal; comparisons differing in one of those five return False normally, so
equality of any product with itself always raises. -/
theorem claim9_product_eq_attribute_error :
    ∀ p q : Product, p.title = q.title → p.short_description = q.short_description →
      p.code_digis = q.code_digis → p.article = q.article → p.price = q.price →
      product_eq p q = Except.error PyErr.attributeError := by
  intro p q h1 h2 h3 h4 h5
  simp [product_eq, h1, h2, h3, h4, h5]

/-- Claim C9, counterexample to the claim as stated: two products with
different titles compare to False without raising — Python and
short-circuits before the bad attribute is read, so not every comparison
raises AttributeError. -/
theorem claim9_counterexample :
    product_eq productA productB = Except.ok false := by decide

/-- Claim C9 witness: comparing a product with itself reaches the poster
attribute read and raises AttributeError. -/
theorem claim9_witness :
    product_eq productA productA = Except.error PyErr.attributeError :=
  claim9_product_eq_attribute_error productA productA rfl rfl rfl rfl rfl

/-- Claim C10: when pager markup is present but none of its child labels is a
digit string, the numeric-label list is empty and max() raises ValueError, so
start_parsing_catrgory errors instead of returning the page-1 URL set. -/
theorem claim10_empty_pager_value_error :
    ∀ (fetchPage : Nat → Option Page) (p1 : Page) (labels : List String),
      fetchPage 1 = some p1 → p1.pager = some labels →
      labels.filter isdigitStr = [] →
      start_parsing_catrgory fetchPage = Except.error PyErr.valueError := by
  intro fp p1 labels h1 h2 h3
  simp only [start_parsing_catrgory, h1, h2, h3, List.map_nil, pyMax]

/-- Claim C10 witness: a pager whose labels are a word and an arrow raises
ValueError. -/
theorem claim10_witness :
    start_parsing_catrgory fetchEmptyPager = Except.error PyErr.valueError :=
  claim10_empty_pager_value_error fetchEmptyPager ⟨["r1"], some ["след", "→"]⟩
    ["след", "→"] rfl rfl (by decide)

theorem fetchGo_success_step (cfg : FetchConfig) (script : Nat → AttemptResult)
    (r k : Nat) (evs : List SleepEvent)
    (h : classify (script k) = AttemptClass.success) :
    fetchGo cfg script k (r + 1) evs
      = (backoffEvs cfg k evs, k, FetchOutcome.document) := by
  simp only [fetchGo, h]

/-- Claim C3, amended: after a 429 on the first attempt the fetcher sleeps the
fixed 60-unit cooldown, and the next attempt is additionally preceded by the
normal exponential backoff sleep of sleep_time * 2 and jitter — the cooldown
supplements the backoff rather than replacing it — while the 429 attempt still
consumes one of the 3 attempts (at least 2 attempts are issued). -/
theorem claim3_cooldown_plus_backoff :
    ∀ (cfg : FetchConfig) (script : Nat → AttemptResult),
      classify (script 1) = AttemptClass.rateLimited →
      (∃ rest, (fetch cfg script).1
          = SleepEvent.pacing (max 2 (cfg.sleep_time + cfg.pacing_jitter))
            :: SleepEvent.cooldown 60
            :: SleepEvent.backoff (cfg.sleep_time * 2 ^ (2 - 1) + cfg.backoff_jitter 2)
            :: rest)
        ∧ 2 ≤ (fetch cfg script).2.1 := by
  intro cfg script h
  have hstep : fetch cfg script
      = fetchGo cfg script 2 2
          (backoffEvs cfg 1
              [SleepEvent.pacing (max 2 (cfg.sleep_time + cfg.pacing_jitter))]
            ++ [SleepEvent.cooldown 60]) :=
    fetchGo_rate_step cfg script 2 1 _ h
  have hb1 : backoffEvs cfg 1
      [SleepEvent.pacing (max 2 (cfg.sleep_time + cfg.pacing_jitter))]
      = [SleepEvent.pacing (max 2 (cfg.sleep_time + cfg.pacing_jitter))] := by
    simp [backoffEvs]
  constructor
  · obtain ⟨rest, hrest⟩ := fetchGo_backoff_prefix cfg script 1 2
      ([SleepEvent.pacing (max 2 (cfg.sleep_time + cfg.pacing_jitter))]
        ++ [SleepEvent.cooldown 60])
    have hrest2 : backoffEvs cfg 2
        ([SleepEvent.pacing (max 2 (cfg.sleep_time + cfg.pacing_jitter))]
          ++ [SleepEvent.cooldown 60]) ++ rest
        = (fetchGo cfg script 2 2
            ([SleepEvent.pacing (max 2 (cfg.sleep_time + cfg.pacing_jitter))]
              ++ [SleepEvent.cooldown 60])).1 := hrest
    refine ⟨rest, ?_⟩
    rw [hstep, hb1, ← hrest2, backoffEvs_eq]
    simp
  · rw [hstep]
    have hge := fetchGo_attempts_ge cfg script 2 2
      (backoffEvs cfg 1 [SleepEvent.pacing (max 2 (cfg.sleep_time + cfg.pacing_jitter))]
        ++ [SleepEvent.cooldown 60])
    simpa using hge

/-- Claim C3, counterexample to the claim as stated: with sleep_time 3, pacing
jitter one half and backoff jitter 1, a 429 followed by a 200 produces the
sleep sequence pacing, cooldown 60, backoff — the backoff sleep of
sleep_time * 2 + jitter = 7 is still performed between the cooldown and the
next attempt, so the cooldown does not replace the exponential backoff. -/
theorem claim3_counterexample :
    (fetch cfgA scriptRate).1
      = [SleepEvent.pacing (max 2 (cfgA.sleep_time + cfgA.pacing_jitter)),
         SleepEvent.cooldown 60,
         SleepEvent.backoff (cfgA.sleep_time * 2 ^ (2 - 1) + cfgA.backoff_jitter 2)]
    ∧ (fetch cfgA scriptRate).2 = (2, FetchOutcome.document)
    ∧ cfgA.sleep_time * 2 ^ (2 - 1) + cfgA.backoff_jitter 2 = 7
    ∧ max 2 (cfgA.sleep_time + cfgA.pacing_jitter) = 7 / 2 := by
  have hc1 : classify (scriptRate 1) = AttemptClass.rateLimited := by decide
  have hc2 : classify (scriptRate 2) = AttemptClass.success := by decide
  have hstep : fetch cfgA scriptRate
      = fetchGo cfgA scriptRate 2 2
          (backoffEvs cfgA 1
              [SleepEvent.pacing (max 2 (cfgA.sleep_time + cfgA.pacing_jitter))]
            ++ [SleepEvent.cooldown 60]) :=
    fetchGo_rate_step cfgA scriptRate 2 1 _ hc1
  have hterm : fetchGo cfgA scriptRate 2 2
      (backoffEvs cfgA 1
          [SleepEvent.pacing (max 2 (cfgA.sleep_time + cfgA.pacing_jitter))]
        ++ [SleepEvent.cooldown 60])
      = (backoffEvs cfgA 2
          (backoffEvs cfgA 1
              [SleepEvent.pacing (max 2 (cfgA.sleep_time + cfgA.pacing_jitter))]
            ++ [SleepEvent.cooldown 60]), 2, FetchOutcome.document) :=
    fetchGo_success_step cfgA scriptRate 1 2 _ hc2
  refine ⟨?_, ?_, ?_, ?_⟩
  · rw [hstep, hterm, backoffEvs_eq, backoffEvs_eq]
    simp
  · rw [hstep, hterm]
  · show (3 : ℚ) * 2 ^ (2 - 1) + 1 = 7
    norm_num
  · show max 2 ((3 : ℚ) + 1 / 2) = 7 / 2
    rw [max_def, if_pos (by norm_num : (2 : ℚ) ≤ 3 + 1 / 2)]
    norm_num

/-- Claim C3 witness: the amended statement instantiated at the concrete
configuration and the 429-then-200 script. -/
theorem claim3_witness :
    (∃ rest, (fetch cfgA scriptRate).1
        = SleepEvent.pacing (max 2 (cfgA.sleep_time + cfgA.pacing_jitter))
          :: SleepEvent.cooldown 60
          :: SleepEvent.backoff (cfgA.sleep_time * 2 ^ (2 - 1) + cfgA.backoff_jitter 2)
          :: rest)
      ∧ 2 ≤ (fetch cfgA scriptRate).2.1 :=
  claim3_cooldown_plus_backoff cfgA scriptRate (by decide)

/-- Claim C4: for every configuration and every attempt script, _fetch issues
at most 3 attempts; a 403 on the first response returns the Blocked path after
exactly 1 attempt; a 404 on the first response returns the NotFound path after
exactly 1 attempt; transient outcomes (5xx, timeouts, transport errors, other
error statuses) proceed to the next attempt; and three transient attempts end
in the Exhausted path after exactly 3 attempts. -/
theorem claim4_retry_contract :
    ∀ (cfg : FetchConfig) (script : Nat → AttemptResult),
      (fetch cfg script).2.1 ≤ 3
      ∧ (script 1 = AttemptResult.status 403 →
          (fetch cfg script).2 = (1, FetchOutcome.blocked))
      ∧ (script 1 = AttemptResult.status 404 →
          (fetch cfg script).2 = (1, FetchOutcome.notFound))
      ∧ (isTransient (script 1) = true → 2 ≤ (fetch cfg script).2.1)
      ∧ (isTransient (script 1) = true → isTransient (script 2) = true →
          3 ≤ (fetch cfg script).2.1)
      ∧ ((∀ k, 1 ≤ k → k ≤ 3 → isTransient (script k) = true) →
          (fetch cfg script).2 = (3, FetchOutcome.exhausted)) := by
  intro cfg script
  refine ⟨?_, ?_, ?_, ?_, ?_, ?_⟩
  · exact fetchGo_attempts_le cfg script 3 1 _ rfl
  · intro h
    have hc : classify (script 1) = AttemptClass.banned := by rw [h]; decide
    exact (fetchGo_terminal_step cfg script 2 1 _).1 hc
  · intro h
    have hc : classify (script 1) = AttemptClass.notFound404 := by rw [h]; decide
    exact (fetchGo_terminal_step cfg script 2 1 _).2.2 hc
  · intro h
    have hstep : fetch cfg script
        = fetchGo cfg script 2 2
            (backoffEvs cfg 1
              [SleepEvent.pacing (max 2 (cfg.sleep_time + cfg.pacing_jitter))]) :=
      fetchGo_retry_step cfg script 2 1 _ (transient_cases _ h)
    rw [hstep]
    have hge := fetchGo_attempts_ge cfg script 2 2
      (backoffEvs cfg 1 [SleepEvent.pacing (max 2 (cfg.sleep_time + cfg.pacing_jitter))])
    simpa using hge
  · intro h1 h2
    have hs1 : fetch cfg script
        = fetchGo cfg script 2 2
            (backoffEvs cfg 1
              [SleepEvent.pacing (max 2 (cfg.sleep_time + cfg.pacing_jitter))]) :=
      fetchGo_retry_step cfg script 2 1 _ (transient_cases _ h1)
    have hs2 : fetchGo cfg script 2 2
        (backoffEvs cfg 1
          [SleepEvent.pacing (max 2 (cfg.sleep_time + cfg.pacing_jitter))])
        = fetchGo cfg script 3 1
            (backoffEvs cfg 2
              (backoffEvs cfg 1
                [SleepEvent.pacing (max 2 (cfg.sleep_time + cfg.pacing_jitter))])) :=
      fetchGo_retry_step cfg script 1 2 _ (transient_cases _ h2)
    rw [hs1, hs2]
    have hge := fetchGo_attempts_ge cfg script 1 3
      (backoffEvs cfg 2
        (backoffEvs cfg 1
          [SleepEvent.pacing (max 2 (cfg.sleep_time + cfg.pacing_jitter))]))
    simpa using hge
  · intro h
    exact fetchGo_all_transient cfg script 3 1 _ rfl (fun j hj1 hj2 => h j hj1 hj2)

/-- Claim C4 witness: the retry contract instantiated at an all-403 script
(Blocked after one attempt) and an all-500 script (Exhausted after three). -/
theorem claim4_witness :
    (fetch cfgA scriptBan).2 = (1, FetchOutcome.blocked)
    ∧ (fetch cfgA scriptServer).2 = (3, FetchOutcome.exhausted) :=
  ⟨(claim4_retry_contract cfgA scriptBan).2.1 rfl,
   (claim4_retry_contract cfgA scriptServer).2.2.2.2.2 (fun _ _ _ => rfl)⟩

/-- Claim C6: the pagination walk resolves max_page to the maximum of the
numeric pager labels (non-numeric labels are silently dropped) and fetches
every page from 2 to max_page inclusive; if pager markup is absent only
page 1's URLs are returned. Concretely, labels 1, 2, 3, 5 give max_page 5 and
pages 2, 3, 4, 5 are all fetched, each contributing its URLs. -/
theorem claim6_max_page_resolution :
    (∀ nums : List Nat, nums ≠ [] →
        ∃ m, pyMax nums = Except.ok m ∧ m ∈ nums ∧ ∀ n ∈ nums, n ≤ m)
    ∧ (∀ max_page k, k ∈ pages_range max_page ↔ 2 ≤ k ∧ k ≤ max_page)
    ∧ start_parsing_catrgory fetchPager
        = Except.ok ({"p1", "p2", "p3", "p4", "p5"} : Finset String)
    ∧ start_parsing_catrgory fetchNoPager = Except.ok ({"q1"} : Finset String) := by
  refine ⟨?_, ?_, by decide, by decide⟩
  · intro nums hne
    cases nums with
    | nil => exact absurd rfl hne
    | cons x xs =>
      obtain ⟨hmem, hle, hall⟩ := foldl_max_spec xs x
      refine ⟨xs.foldl max x, rfl, hmem, ?_⟩
      intro n hn
      rcases List.mem_cons.mp hn with rfl | hn2
      · exact hle
      · exact hall n hn2
  · intro mp k
    simp only [pages_range, List.mem_range'_1]
    omega

/-- Claim C6 witness: the max-page resolution applied to the numeric labels
1, 2, 3, 5. -/
theorem claim6_witness :
    ∃ m, pyMax [1, 2, 3, 5] = Except.ok m ∧ m ∈ [1, 2, 3, 5]
      ∧ ∀ n ∈ [1, 2, 3, 5], n ≤ m :=
  claim6_max_page_resolution.1 [1, 2, 3, 5] (by decide)

/-- Claim C8: the discovery folds union their branch results into a set, so
the final frontier is invariant under every completion order of the branch
tasks, a URL is in the frontier exactly when some branch produced it, and each
URL occurs exactly once in the underlying collection. -/
theorem claim8_union_idempotent :
    (∀ l₁ l₂ : List (List String), List.Perm l₁ l₂ →
        start_extract_urls l₁ = start_extract_urls l₂)
    ∧ (∀ m₁ m₂ : List (Finset String), List.Perm m₁ m₂ →
        extract_all_urls m₁ = extract_all_urls m₂)
    ∧ (∀ (l : List (List String)) (u : String),
        u ∈ start_extract_urls l ↔ ∃ r ∈ l, u ∈ r)
    ∧ (∀ (m : List (Finset String)) (u : String),
        u ∈ extract_all_urls m ↔ ∃ s ∈ m, u ∈ s)
    ∧ (∀ (m : List (Finset String)) (u : String),
        u ∈ extract_all_urls m → Multiset.count u (extract_all_urls m).val = 1) := by
  refine ⟨?_, ?_, ?_, ?_, ?_⟩
  · intro l₁ l₂ hp
    exact hp.foldl_eq' (fun x _ y _ z => Finset.union_right_comm z x.toFinset y.toFinset) ∅
  · intro m₁ m₂ hp
    exact hp.foldl_eq' (fun x _ y _ z => Finset.union_right_comm z x y) ∅
  · intro l u
    simpa using foldl_union_mem_lists l ∅ u
  · intro m u
    simpa using foldl_union_mem_sets m ∅ u
  · intro m u hu
    exact Multiset.count_eq_one_of_mem (extract_all_urls m).nodup (Finset.mem_def.mp hu)

/-- Claim C8 witness: order-independence applied to two singleton branches in
both completion orders. -/
theorem claim8_witness :
    start_extract_urls [["a"], ["b"]] = start_extract_urls [["b"], ["a"]] :=
  claim8_union_idempotent.1 [["a"], ["b"]] [["b"], ["a"]] (by decide)
